import Mathlib

/-!
Verification of the project/task manager's state container, view selector
and validation flow, shallowly embedded from the repository's source
(`src/App.jsx`, `src/components/NewProject.jsx` with its `handleSave`,
`src/components/NewTask.jsx`, and the `SelectedProject`/`Tasks` components
recorded in the repository's documentation).

Modelling conventions:
- JavaScript's `selectedProjectId` field holds `undefined`, `null`, or a
  number; it is embedded as the inductive `SelectedId` with the three
  corresponding constructors.
- `Math.random()` identifier generation is embedded by passing the
  generated value as an explicit argument to each operation: the code
  observes nothing about the value except identity comparisons, and any
  value (including one colliding with an existing id) is a possible
  output of the source's generator.
- A task's `projectId` is copied verbatim from `prevState.selectedProjectId`
  (App.jsx line 54), so it has type `SelectedId` as well.
- JavaScript property access on `undefined` throws a `TypeError`; rendering
  code that dereferences a possibly-absent project is embedded in `Except`.
-/

namespace PM

/-- The JavaScript value stored in `projectState.selectedProjectId`:
`undefined`, `null` (the add-project signal), or a project id number. -/
inductive SelectedId where
  | undef : SelectedId
  | null : SelectedId
  | id (v : Nat) : SelectedId
deriving DecidableEq, Repr

/-- A project record as built by `handleAddProject` in App.jsx:
the three submitted fields spread verbatim, plus the generated `id`. -/
structure Project where
  title : String
  description : String
  dueDate : String
  id : Nat
deriving DecidableEq, Repr

/-- A task record as built by `handleAddTask` in App.jsx lines 50-56:
`text`, `projectId: prevState.selectedProjectId` (copied verbatim, so it can
be the undefined/null marker), and the generated `id`. -/
structure Task where
  text : String
  projectId : SelectedId
  id : Nat
deriving DecidableEq, Repr

/-- The single state object of App.jsx:
`{ selectedProjectId, projects, tasks }`. -/
structure ProjectState where
  selectedProjectId : SelectedId
  projects : List Project
  tasks : List Task
deriving DecidableEq, Repr

/-- `useState({selectedProjectId: undefined, projects: [], tasks: []})`,
App.jsx lines 41-45. -/
def initialState : ProjectState :=
  { selectedProjectId := .undef, projects := [], tasks := [] }

/-- `handleAddTask(text)` (App.jsx lines 47-64): unconditionally prepends
`{text, projectId: prevState.selectedProjectId, id: taskId}` to `tasks`,
leaving the other fields of the state unchanged. The generated
`Math.random()` value is the explicit `taskId` argument. -/
def handleAddTask (text : String) (taskId : Nat) (s : ProjectState) : ProjectState :=
  let newTask : Task :=
    { text := text, projectId := s.selectedProjectId, id := taskId }
  { s with tasks := newTask :: s.tasks }

/-- `handleDeleteTask(id)` (App.jsx lines 66-72):
`tasks.filter((task) => task.id !== id)`. -/
def handleDeleteTask (id : Nat) (s : ProjectState) : ProjectState :=
  { s with tasks := s.tasks.filter (fun task => task.id ≠ id) }

/-- `handleSelectProject(id)` (App.jsx lines 74-79):
sets `selectedProjectId` to the given id. -/
def handleSelectProject (id : Nat) (s : ProjectState) : ProjectState :=
  { s with selectedProjectId := .id id }

/-- `handleStartAddProject` (App.jsx lines 81-86):
sets `selectedProjectId` to `null` (the add-project signal). -/
def handleStartAddProject (s : ProjectState) : ProjectState :=
  { s with selectedProjectId := .null }

/-- `handleCancelProjectAddProject` (App.jsx lines 88-93):
sets `selectedProjectId` back to `undefined`. -/
def handleCancelProjectAddProject (s : ProjectState) : ProjectState :=
  { s with selectedProjectId := .undef }

/-- The `{title, description, dueDate}` object passed to `onAdd`. -/
structure ProjectData where
  title : String
  description : String
  dueDate : String
deriving DecidableEq, Repr

/-- `handleAddProject(projectData)` (App.jsx lines 95-108): builds
`{...projectData, id: projectId}` and returns
`{...prevState, selectedProjectId: undefined,
projects: [...prevState.projects, newProject]}` — the new project is
appended at the end, selection is reset to `undefined`, tasks untouched.
The generated `Math.random()` value is the explicit `projectId` argument. -/
def handleAddProject (projectData : ProjectData) (projectId : Nat)
    (s : ProjectState) : ProjectState :=
  let newProject : Project :=
    { title := projectData.title, description := projectData.description,
      dueDate := projectData.dueDate, id := projectId }
  { s with selectedProjectId := .undef,
           projects := s.projects ++ [newProject] }

/-- `handleDeleteProject` (App.jsx lines 109-117): resets
`selectedProjectId` to `undefined` and keeps exactly the projects with
`project.id !== prevState.selectedProjectId` (strict JS comparison of a
number against the possibly-undefined selection value). `tasks` is not
touched. -/
def handleDeleteProject (s : ProjectState) : ProjectState :=
  { s with selectedProjectId := .undef,
           projects := s.projects.filter
             (fun project => SelectedId.id project.id ≠ s.selectedProjectId) }

/-- `projectState.projects.find((project) => project.id ===
projectState.selectedProjectId)` (App.jsx lines 119-121). -/
def selectedProjectOf (s : ProjectState) : Option Project :=
  s.projects.find? (fun project => SelectedId.id project.id = s.selectedProjectId)

/-- The three screens the App can render. The project-detail screen records
exactly the props App.jsx passes: the `find` result (possibly absent) and
the FULL task list `projectState.tasks` (App.jsx line 128). -/
inductive Content where
  | selectedProjectView (project : Option Project) (tasks : List Task) : Content
  | newProjectView : Content
  | noProjectSelectedView : Content
deriving DecidableEq, Repr

/-- The view-selection logic of App.jsx lines 119-141: `content` defaults to
`SelectedProject` (with the `find` result and the full task list), is
replaced by `NewProject` when `selectedProjectId === null`, and by
`NoProjectSelected` when `selectedProjectId === undefined`. -/
def appContent (s : ProjectState) : Content :=
  if s.selectedProjectId = .null then .newProjectView
  else if s.selectedProjectId = .undef then .noProjectSelectedView
  else .selectedProjectView (selectedProjectOf s) s.tasks

/-- What the `SelectedProject` component puts on screen: header fields read
off the `project` prop and the task texts rendered by `Tasks`
(`tasks.map((task) => ... {task.text} ...)`, doc 17.1; no filtering of the
list it receives). -/
structure ProjectDetailView where
  title : String
  dueDate : String
  description : String
  taskTexts : List String
deriving DecidableEq, Repr

/-- Rendering `SelectedProject` (src/unnamed/part_005 lines 76-105 plus the
`Tasks` list of doc 17.1): it immediately evaluates `project.dueDate`,
`project.title`, `project.description`. In JavaScript a property access on
`undefined` throws a `TypeError`, embedded here as `Except.error`. -/
def renderSelectedProject (project : Option Project) (tasks : List Task) :
    Except String ProjectDetailView :=
  match project with
  | none => .error "TypeError: cannot read properties of undefined"
  | some p =>
      .ok { title := p.title, dueDate := p.dueDate, description := p.description,
            taskTexts := tasks.map (fun task => task.text) }

/-- JavaScript's `String.prototype.trim()`: the string with leading and
trailing whitespace removed. (Embedded directly over the character list so
that it evaluates by kernel reduction.) -/
def jsTrim (s : String) : String :=
  ⟨(s.data.dropWhile Char.isWhitespace).reverse.dropWhile Char.isWhitespace |>.reverse⟩

/-- The modal of the validation flow (doc 12.3): closed until
`modal.current.open()` is called. (`opened` models the source's "open"
state; `open` is a Lean keyword.) -/
inductive ModalState where
  | closed : ModalState
  | opened : ModalState
deriving DecidableEq, Repr

/-- The values read from the three input refs in `NewProject.handleSave`. -/
structure NewProjectForm where
  enteredTitle : String
  enteredDescription : String
  enteredDueDate : String
deriving DecidableEq, Repr

/-- `handleSave` of NewProject (doc 12.3 lines 46-66): if any of the three
entered values is blank after `trim()`, it opens the modal and returns
without calling `onAdd`; otherwise it calls
`onAdd({title: enteredTitle, description: enteredDescription, dueDate:
enteredDueDate})` — the UNtrimmed values — which is `handleAddProject`. -/
def handleSave (form : NewProjectForm) (projectId : Nat)
    (modal : ModalState) (s : ProjectState) : ProjectState × ModalState :=
  if jsTrim form.enteredTitle = "" ∨ jsTrim form.enteredDescription = "" ∨
      jsTrim form.enteredDueDate = "" then
    (s, .opened)
  else
    (handleAddProject
      { title := form.enteredTitle, description := form.enteredDescription,
        dueDate := form.enteredDueDate } projectId s,
     modal)

/-- `handleClick` of NewTask (NewTask.jsx lines 10-14): if the entered text
is blank after `trim()` it returns without calling `onAdd`; otherwise it
calls `onAdd(enteredTask)` — the untrimmed text — which is
`handleAddTask`. -/
def newTaskClick (enteredTask : String) (taskId : Nat)
    (s : ProjectState) : ProjectState :=
  if jsTrim enteredTask = "" then s
  else handleAddTask enteredTask taskId s

/-- The spec's §4.4 task filter, for comparison with the code: "the detail
view derives the visible subset by filtering for
`task.projectId === projectId`". This definition follows the spec's words;
the source passes the unfiltered `projectState.tasks` instead. -/
def specFilteredTasks (tasks : List Task) (projectId : Nat) : List Task :=
  tasks.filter (fun task => task.projectId = SelectedId.id projectId)

/-! ### Helper lemmas -/

/-- Auxiliary: filtering out the (unique, present) id `pid` from a project
list with pairwise-distinct ids removes exactly one element. -/
theorem length_filter_ne_id (l : List Project) (pid : Nat)
    (hnd : (l.map Project.id).Nodup) (hp : ∃ p ∈ l, p.id = pid) :
    (l.filter (fun q => q.id ≠ pid)).length + 1 = l.length := by
  induction l with
  | nil => simp at hp
  | cons a l ih =>
      simp only [List.map_cons, List.nodup_cons] at hnd
      by_cases ha : a.id = pid
      · have hl : ∀ q ∈ l, (fun q => decide (q.id ≠ pid)) q = true := by
          intro q hq
          have hmem : q.id ∈ l.map Project.id := List.mem_map_of_mem Project.id hq
          simp only [decide_eq_true_eq, ne_eq]
          intro hqe
          rw [hqe, ← ha] at hmem
          exact hnd.1 hmem
        have heq : l.filter (fun q => q.id ≠ pid) = l := List.filter_eq_self.mpr hl
        have hdrop : (a :: l).filter (fun q => q.id ≠ pid)
            = l.filter (fun q => q.id ≠ pid) :=
          List.filter_cons_of_neg (by simp [ha])
        rw [hdrop, heq, List.length_cons]
      · obtain ⟨p, hpl, hpe⟩ := hp
        rcases List.mem_cons.mp hpl with hpa | hpl'
        · exact absurd (hpa ▸ hpe) ha
        · have hrec := ih hnd.2 ⟨p, hpl', hpe⟩
          have hkeep : (a :: l).filter (fun q => q.id ≠ pid)
              = a :: l.filter (fun q => q.id ≠ pid) :=
            List.filter_cons_of_pos (by simp [ha])
          rw [hkeep, List.length_cons, List.length_cons, hrec]

/-! ### Claim theorems -/

/-- C1 (code evaluated at the failing input): from the initial state,
`selectProject(7)` produces the snapshot `selected(7)` with an empty Project
Collection; on that snapshot the view-selection logic of App.jsx yields the
`SelectedProject` branch with an absent project — not `NoProjectSelected` —
and rendering `SelectedProject` on the absent project throws a `TypeError`
(it dereferences `project.dueDate`). The claim's required fail-safe to
`NoProjectSelected` is not what the code does. -/
theorem C1_stale_selection_renders_detail_and_throws :
    appContent (handleSelectProject 7 initialState) =
      Content.selectedProjectView none [] ∧
    appContent (handleSelectProject 7 initialState) ≠ Content.noProjectSelectedView ∧
    renderSelectedProject none [] =
      Except.error "TypeError: cannot read properties of undefined" :=
  ⟨rfl, by decide, rfl⟩

/-- C2 (code evaluated at the failing input): after creating project "A"
(id 1) and project "B" (id 2), selecting B, adding task "t" (which gets
`projectId = 2`), and then selecting A, the detail view for A receives the
FULL Task Collection — including the task tagged with B's id — whereas the
spec's §4.4 filter (`specFilteredTasks`) would yield the empty list for A.
The source never filters tasks by `projectId`. -/
theorem C2_detail_view_shows_unfiltered_tasks :
    appContent (handleSelectProject 1 (newTaskClick "t" 10 (handleSelectProject 2
        (handleSave ⟨"B", "b", "2025-01-02"⟩ 2 ModalState.closed
          (handleSave ⟨"A", "a", "2025-01-01"⟩ 1 ModalState.closed
            initialState).1).1))) =
      Content.selectedProjectView
        (some { title := "A", description := "a", dueDate := "2025-01-01", id := 1 })
        [{ text := "t", projectId := SelectedId.id 2, id := 10 }] ∧
    specFilteredTasks [{ text := "t", projectId := SelectedId.id 2, id := 10 }] 1 = [] ∧
    ([{ text := "t", projectId := SelectedId.id 2, id := 10 }] : List Task) ≠
      specFilteredTasks [{ text := "t", projectId := SelectedId.id 2, id := 10 }] 1 := by
  refine ⟨by decide, by decide, by decide⟩

/-- C3 counterexample: in the initial state no project is selected
(`selectedProjectId` is the undefined marker and the Project Collection is
empty), yet `addTask("x")` (the NewTask click handler followed by
`handleAddTask`) is NOT a no-op — it prepends a task, with the undefined
marker stored as its `projectId`. -/
theorem C3_counterexample :
    initialState.selectedProjectId = SelectedId.undef ∧
    initialState.projects = [] ∧
    (newTaskClick "x" 3 initialState).tasks ≠ initialState.tasks ∧
    (newTaskClick "x" 3 initialState).tasks
      = [{ text := "x", projectId := SelectedId.undef, id := 3 }] := by
  refine ⟨rfl, rfl, by decide, by decide⟩

/-- C3 (amended): when no project is selected, `addTask(text)` with
non-blank text still prepends exactly one Task — whose `projectId` is the
undefined no-selection marker — to the Task Collection; the Project
Collection and the Selection State are unchanged. -/
theorem C3_amended_addTask_without_selection (text : String) (taskId : Nat)
    (s : ProjectState) (hsel : s.selectedProjectId = SelectedId.undef)
    (htext : jsTrim text ≠ "") :
    (newTaskClick text taskId s).tasks
      = { text := text, projectId := SelectedId.undef, id := taskId } :: s.tasks ∧
    (newTaskClick text taskId s).projects = s.projects ∧
    (newTaskClick text taskId s).selectedProjectId = s.selectedProjectId := by
  simp [newTaskClick, htext, handleAddTask, hsel]

/-- C3 (amended), witness at a concrete input. -/
theorem C3_amended_witness :
    (newTaskClick "x" 3 initialState).tasks
      = { text := "x", projectId := SelectedId.undef, id := 3 } :: initialState.tasks ∧
    (newTaskClick "x" 3 initialState).projects = initialState.projects ∧
    (newTaskClick "x" 3 initialState).selectedProjectId
      = initialState.selectedProjectId :=
  C3_amended_addTask_without_selection "x" 3 initialState rfl (by decide)

/-- C4: when any of the three submitted fields is blank after trimming,
`handleSave` leaves the whole application state unchanged (in particular
the Project Collection and the Selection State) and transitions the modal
from closed to open; `onAdd`/`handleAddProject` is never invoked. -/
theorem C4_blank_input_rejected (form : NewProjectForm) (projectId : Nat)
    (s : ProjectState)
    (hblank : jsTrim form.enteredTitle = "" ∨ jsTrim form.enteredDescription = "" ∨
      jsTrim form.enteredDueDate = "") :
    handleSave form projectId ModalState.closed s = (s, ModalState.opened) := by
  simp [handleSave, hblank]

/-- C4, witness at the spec's own example input
`{title: "", description: "x", dueDate: "2025-01-01"}`. -/
theorem C4_blank_input_rejected_witness :
    handleSave ⟨"", "x", "2025-01-01"⟩ 5 ModalState.closed initialState
      = (initialState, ModalState.opened) :=
  C4_blank_input_rejected ⟨"", "x", "2025-01-01"⟩ 5 initialState (Or.inl (by decide))

/-- C5: when all three submitted fields are non-blank after trimming,
`handleSave` invokes `handleAddProject`, which appends exactly one new
Project — carrying the submitted field values and the generated id — to the
END of the Project Collection, and sets the Selection State to the
undefined no-selection marker; the Task Collection and the modal are
untouched. -/
theorem C5_valid_addProject (form : NewProjectForm) (projectId : Nat)
    (modal : ModalState) (s : ProjectState)
    (ht : jsTrim form.enteredTitle ≠ "") (hd : jsTrim form.enteredDescription ≠ "")
    (hdd : jsTrim form.enteredDueDate ≠ "") :
    handleSave form projectId modal s =
      ({ s with selectedProjectId := .undef,
                projects := s.projects ++
                  [{ title := form.enteredTitle,
                     description := form.enteredDescription,
                     dueDate := form.enteredDueDate, id := projectId }] }, modal) := by
  simp [handleSave, ht, hd, hdd, handleAddProject]

/-- C5, witness at the spec's end-to-end example input. -/
theorem C5_valid_addProject_witness :
    handleSave ⟨"Website", "Redesign", "2025-03-01"⟩ 4 ModalState.closed initialState =
      ({ initialState with
          selectedProjectId := .undef,
          projects := [{ title := "Website", description := "Redesign",
                         dueDate := "2025-03-01", id := 4 }] }, ModalState.closed) :=
  C5_valid_addProject ⟨"Website", "Redesign", "2025-03-01"⟩ 4 ModalState.closed
    initialState (by decide) (by decide) (by decide)

/-- C6 counterexample: `Math.random()` gives no distinctness guarantee, and
the code never checks the generated id against existing ones. Modelling two
draws that return the same value (a possible outcome of the source's
generator), two valid `addProject` calls yield a Project Collection with
ids `[5, 5]`: the id generated for the second call is NOT distinct from the
id already in the collection. -/
theorem C6_counterexample :
    ((handleSave ⟨"A", "a", "d"⟩ 5 ModalState.closed initialState).1.projects.map
        Project.id = [5]) ∧
    ((handleSave ⟨"B", "b", "d"⟩ 5 ModalState.closed
        (handleSave ⟨"A", "a", "d"⟩ 5 ModalState.closed
          initialState).1).1.projects.map Project.id = [5, 5]) := by
  refine ⟨by decide, by decide⟩

/-- C6 (amended): every valid `addProject` call grows the Project
Collection by exactly one, appending the generated id; the new id is
distinct from all existing ids — and pairwise distinctness of ids is
preserved — exactly when the generated value avoids every id already in the
collection, which the random source makes probable but does not
guarantee. -/
theorem C6_amended_addProject_ids (form : NewProjectForm) (projectId : Nat)
    (modal : ModalState) (s : ProjectState)
    (ht : jsTrim form.enteredTitle ≠ "") (hd : jsTrim form.enteredDescription ≠ "")
    (hdd : jsTrim form.enteredDueDate ≠ "") :
    ((handleSave form projectId modal s).1.projects.length = s.projects.length + 1) ∧
    ((handleSave form projectId modal s).1.projects.map Project.id
        = s.projects.map Project.id ++ [projectId]) ∧
    (projectId ∉ s.projects.map Project.id →
      (s.projects.map Project.id).Nodup →
      ((handleSave form projectId modal s).1.projects.map Project.id).Nodup) := by
  refine ⟨?_, ?_, ?_⟩
  · simp [handleSave, ht, hd, hdd, handleAddProject]
  · simp [handleSave, ht, hd, hdd, handleAddProject]
  · intro hmem hnd
    have hids : (handleSave form projectId modal s).1.projects.map Project.id
        = s.projects.map Project.id ++ [projectId] := by
      simp [handleSave, ht, hd, hdd, handleAddProject]
    rw [hids]
    simp [List.nodup_append, hnd, hmem]

/-- C6 (amended), witness: two valid calls with ids 1 then 2. -/
theorem C6_amended_witness :
    ((handleSave ⟨"B", "b", "e"⟩ 2 ModalState.closed
        (handleSave ⟨"A", "a", "d"⟩ 1 ModalState.closed
          initialState).1).1.projects.length
      = (handleSave ⟨"A", "a", "d"⟩ 1 ModalState.closed
          initialState).1.projects.length + 1) ∧
    ((handleSave ⟨"B", "b", "e"⟩ 2 ModalState.closed
        (handleSave ⟨"A", "a", "d"⟩ 1 ModalState.closed
          initialState).1).1.projects.map Project.id
      = (handleSave ⟨"A", "a", "d"⟩ 1 ModalState.closed
          initialState).1.projects.map Project.id ++ [2]) ∧
    (2 ∉ (handleSave ⟨"A", "a", "d"⟩ 1 ModalState.closed
          initialState).1.projects.map Project.id →
      ((handleSave ⟨"A", "a", "d"⟩ 1 ModalState.closed
          initialState).1.projects.map Project.id).Nodup →
      ((handleSave ⟨"B", "b", "e"⟩ 2 ModalState.closed
        (handleSave ⟨"A", "a", "d"⟩ 1 ModalState.closed
          initialState).1).1.projects.map Project.id).Nodup) :=
  C6_amended_addProject_ids ⟨"B", "b", "e"⟩ 2 ModalState.closed
    (handleSave ⟨"A", "a", "d"⟩ 1 ModalState.closed initialState).1
    (by decide) (by decide) (by decide)

/-- C7: while a Project `p` of the collection is the current selection,
`addTask(text)` with non-blank text (the NewTask guard plus
`handleAddTask`) prepends exactly one new Task with that exact text,
`projectId` equal to `p.id`, and the generated id to the FRONT of the Task
Collection, leaving every other field of the state — in particular the
Project Collection and the Selection State — unchanged. -/
theorem C7_addTask_prepends (text : String) (taskId : Nat) (s : ProjectState)
    (p : Project) (hp : p ∈ s.projects) (hsel : s.selectedProjectId = .id p.id)
    (htext : jsTrim text ≠ "") :
    newTaskClick text taskId s =
      { s with tasks :=
          { text := text, projectId := SelectedId.id p.id, id := taskId }
            :: s.tasks } := by
  simp [newTaskClick, htext, handleAddTask, hsel]

/-- C7, witness: the spec's `addTask("Buy milk")` example with project
"Website" (id 4) selected and one pre-existing task in the collection. -/
theorem C7_addTask_prepends_witness :
    newTaskClick "Buy milk" 9
      { selectedProjectId := SelectedId.id 4,
        projects := [{ title := "Website", description := "Redesign",
                       dueDate := "2025-03-01", id := 4 }],
        tasks := [{ text := "old", projectId := SelectedId.id 4, id := 8 }] } =
      { selectedProjectId := SelectedId.id 4,
        projects := [{ title := "Website", description := "Redesign",
                       dueDate := "2025-03-01", id := 4 }],
        tasks := [{ text := "Buy milk", projectId := SelectedId.id 4, id := 9 },
                  { text := "old", projectId := SelectedId.id 4, id := 8 }] } :=
  C7_addTask_prepends "Buy milk" 9
    { selectedProjectId := SelectedId.id 4,
      projects := [{ title := "Website", description := "Redesign",
                     dueDate := "2025-03-01", id := 4 }],
      tasks := [{ text := "old", projectId := SelectedId.id 4, id := 8 }] }
    { title := "Website", description := "Redesign",
      dueDate := "2025-03-01", id := 4 }
    (by decide) rfl (by decide)

/-- C8: for a Project `p` present in a collection whose ids are pairwise
distinct, `selectProject(p.id)` followed immediately by `deleteProject()`
keeps exactly the projects whose id differs from `p.id` — so `p` is gone,
every other project remains, and the length drops by exactly one — resets
the Selection State to the undefined no-selection marker, and the
subsequent view-selection evaluation yields `NoProjectSelected`. -/
theorem C8_select_then_delete (s : ProjectState) (p : Project)
    (hp : p ∈ s.projects) (hnd : (s.projects.map Project.id).Nodup) :
    (handleDeleteProject (handleSelectProject p.id s)).projects
        = s.projects.filter (fun q => q.id ≠ p.id) ∧
    p ∉ (handleDeleteProject (handleSelectProject p.id s)).projects ∧
    (∀ q ∈ s.projects, q ≠ p →
      q ∈ (handleDeleteProject (handleSelectProject p.id s)).projects) ∧
    (handleDeleteProject (handleSelectProject p.id s)).projects.length + 1
        = s.projects.length ∧
    (handleDeleteProject (handleSelectProject p.id s)).selectedProjectId
        = SelectedId.undef ∧
    appContent (handleDeleteProject (handleSelectProject p.id s))
        = Content.noProjectSelectedView := by
  have hfilter : (handleDeleteProject (handleSelectProject p.id s)).projects
      = s.projects.filter (fun q => q.id ≠ p.id) := by
    simp only [handleDeleteProject, handleSelectProject]
    apply List.filter_congr
    intro q hq
    simp
  refine ⟨hfilter, ?_, ?_, ?_, rfl, ?_⟩
  · rw [hfilter]
    simp [List.mem_filter]
  · intro q hq hqne
    rw [hfilter, List.mem_filter]
    refine ⟨hq, ?_⟩
    simp only [ne_eq, decide_eq_true_eq]
    intro hqe
    exact hqne (List.inj_on_of_nodup_map hnd hq hp hqe)
  · rw [hfilter]
    exact length_filter_ne_id s.projects p.id hnd ⟨p, hp, rfl⟩
  · simp [appContent, handleDeleteProject]

/-- C8, witness: deleting project "A" (id 1) out of a two-project
collection keeps exactly project "B" (id 2). -/
theorem C8_select_then_delete_witness :
    (handleDeleteProject (handleSelectProject 1
        { selectedProjectId := SelectedId.undef,
          projects := [{ title := "A", description := "a", dueDate := "d", id := 1 },
                       { title := "B", description := "b", dueDate := "e", id := 2 }],
          tasks := [] })).projects
        = [{ title := "B", description := "b", dueDate := "e", id := 2 }] ∧
    (handleDeleteProject (handleSelectProject 1
        { selectedProjectId := SelectedId.undef,
          projects := [{ title := "A", description := "a", dueDate := "d", id := 1 },
                       { title := "B", description := "b", dueDate := "e", id := 2 }],
          tasks := [] })).selectedProjectId = SelectedId.undef ∧
    appContent (handleDeleteProject (handleSelectProject 1
        { selectedProjectId := SelectedId.undef,
          projects := [{ title := "A", description := "a", dueDate := "d", id := 1 },
                       { title := "B", description := "b", dueDate := "e", id := 2 }],
          tasks := [] })) = Content.noProjectSelectedView := by
  have h := C8_select_then_delete
    { selectedProjectId := SelectedId.undef,
      projects := [{ title := "A", description := "a", dueDate := "d", id := 1 },
                   { title := "B", description := "b", dueDate := "e", id := 2 }],
      tasks := [] }
    { title := "A", description := "a", dueDate := "d", id := 1 }
    (by decide) (by decide)
  refine ⟨?_, h.2.2.2.2.1, h.2.2.2.2.2⟩
  rw [h.1]
  decide

/-- C9: `deleteProject()` never touches the Task Collection: for every
state, the tasks after deletion are exactly the tasks before, so tasks
whose `projectId` references the deleted project stay in the collection as
orphans. -/
theorem C9_delete_project_preserves_tasks (s : ProjectState) :
    (handleDeleteProject s).tasks = s.tasks := rfl

/-- C10: `handleSave` passes the entered values to `handleAddProject`
UNtrimmed — trimming happens only inside the blankness test — so whenever
all three fields are non-blank after trimming, the stored Project carries
the raw entered strings verbatim; the due date is subject to no check other
than non-blankness, so any non-blank string is accepted. -/
theorem C10_fields_stored_verbatim (form : NewProjectForm) (projectId : Nat)
    (modal : ModalState) (s : ProjectState)
    (ht : jsTrim form.enteredTitle ≠ "") (hd : jsTrim form.enteredDescription ≠ "")
    (hdd : jsTrim form.enteredDueDate ≠ "") :
    ((handleSave form projectId modal s).1.projects.map Project.title
        = s.projects.map Project.title ++ [form.enteredTitle]) ∧
    ((handleSave form projectId modal s).1.projects.map Project.description
        = s.projects.map Project.description ++ [form.enteredDescription]) ∧
    ((handleSave form projectId modal s).1.projects.map Project.dueDate
        = s.projects.map Project.dueDate ++ [form.enteredDueDate]) := by
  refine ⟨?_, ?_, ?_⟩ <;> simp [handleSave, ht, hd, hdd, handleAddProject]

/-- C10, witness: a title with surrounding whitespace is stored with its
whitespace, and a due date that is not a well-formed date is accepted. -/
theorem C10_fields_stored_verbatim_witness :
    ((handleSave ⟨" x ", "  desc  ", "not a date"⟩ 6 ModalState.closed
        initialState).1.projects.map Project.title
      = initialState.projects.map Project.title ++ [" x "]) ∧
    ((handleSave ⟨" x ", "  desc  ", "not a date"⟩ 6 ModalState.closed
        initialState).1.projects.map Project.description
      = initialState.projects.map Project.description ++ ["  desc  "]) ∧
    ((handleSave ⟨" x ", "  desc  ", "not a date"⟩ 6 ModalState.closed
        initialState).1.projects.map Project.dueDate
      = initialState.projects.map Project.dueDate ++ ["not a date"]) :=
  C10_fields_stored_verbatim ⟨" x ", "  desc  ", "not a date"⟩ 6 ModalState.closed
    initialState (by decide) (by decide) (by decide)

end PM
